import Mathlib

/-!
# Verification of the gen-meta-app upload pipeline

Shallow embedding of the upload/processing logic of the repository:

* `src/server/src/controllers/single-image.controller.js`
  (`uploadSingleImage`, `deleteImage`);
* `src/src/components/main/upload-formv2 test.tsx`
  (`uploadStatus`, `handleFileChange`, `handleDrop`, `removeFile`,
  `clearAllFiles`, `cancelUpload`, the response-merge and error-path logic of
  `handleFileUpload`);
* `src/unnamed/part_000` (`onDrop` MIME filter).

External calls (metadata generation, S3, MongoDB, the mongoose `save`) are
modelled by explicit success/failure flags in an environment record, and the
controller threads an explicit server state.
-/

namespace GenMeta

/-! ## Client-side file model (upload-formv2 test.tsx) -/

/-- A browser `File` as far as the handlers inspect it: `name` and declared
MIME `type`. -/
structure FileV where
  name : String
  type : String
deriving DecidableEq, Repr

/-- A `{filename, error}` entry of `failedUploads` / `failedImages`. -/
structure FailedImage where
  filename : String
  error : String
deriving DecidableEq, Repr

/-- The JavaScript function `String.prototype.startsWith`, as the handlers use it on
MIME types: the first argument starts with the second. -/
def strStartsWith (s p : String) : Bool :=
  s.data.take p.data.length == p.data

/-- Embedding of `handleFileChange` (upload-formv2 test.tsx, lines 194-213): keep the
offered files whose type starts with `image/`; if adding them would push the
selection past 100 files, reject the whole addition and leave the selection
unchanged; otherwise append. -/
def handleFileChange (files offered : List FileV) : List FileV :=
  let newFiles := offered.filter (fun f => strStartsWith f.type "image/")
  if files.length + newFiles.length > 100 then files
  else files ++ newFiles

/-- Embedding of `handleDrop` (upload-formv2 test.tsx, lines 233-255): same filter and
100-file guard as `handleFileChange`, applied to the dropped files. -/
def handleDrop (files dropped : List FileV) : List FileV :=
  let newFiles := dropped.filter (fun f => strStartsWith f.type "image/")
  if files.length + newFiles.length > 100 then files
  else files ++ newFiles

/-- Embedding of `removeFile` (upload-formv2 test.tsx, lines 215-217): drop the file at
`index`, keeping all others. -/
def removeFile (files : List FileV) (index : Nat) : List FileV :=
  (files.enum.filter (fun p => p.1 ≠ index)).map (fun p => p.2)

/-- Embedding of `clearAllFiles` (upload-formv2 test.tsx, lines 219-221). -/
def clearAllFiles : List FileV := []

/-- The MIME allow-list used by `onDrop` and `handleFileSelect` in
`src/unnamed/part_000`. -/
def allowedImageTypes : List String := ["image/jpeg", "image/png", "image/webp"]

/-- The `onDrop` filter of `src/unnamed/part_000` (lines 79-86): keep exactly the
files whose declared type is in the allow-list. -/
def onDropFilter (dropped : List FileV) : List FileV :=
  dropped.filter (fun f => allowedImageTypes.contains f.type)

/-! ## Upload status classification -/

/-- The four values taken by the `uploadStatus` memo. -/
inductive UploadStatus
  | noResponse
  | allSuccess
  | partialSuccess
  | allFailed
deriving DecidableEq, Repr

/-- Embedding of `uploadStatus` (upload-formv2 test.tsx, lines 182-191): `none` without a
response; then `allFailed` when `failedCount === totalFiles`, then
`partialSuccess` when `failedCount > 0`, else `allSuccess`. -/
def uploadStatus (hasResponse : Bool) (totalFiles failedCount : Nat) : UploadStatus :=
  if !hasResponse then UploadStatus.noResponse
  else if failedCount = totalFiles then UploadStatus.allFailed
  else if failedCount > 0 then UploadStatus.partialSuccess
  else UploadStatus.allSuccess

/-- The classification in the words of the spec ("`allSuccess` if no
failures; `allFailed` if every submitted item failed; otherwise
`partialSuccess`"), used to compare against `uploadStatus` from the code. -/
def specClassification (totalFiles failedCount : Nat) : UploadStatus :=
  if failedCount = 0 then UploadStatus.allSuccess
  else if failedCount = totalFiles then UploadStatus.allFailed
  else UploadStatus.partialSuccess

/-! ## Server-side model (single-image.controller.js) -/

/-- One entry of the per-user token transaction log. -/
structure LedgerEntry where
  delta : Int
  reason : String
  batchId : String
deriving DecidableEq, Repr

/-- The `UserActivity` document as the controller uses it: `availableTokens`,
`totalImageProcessed`, and the transaction log grown by `useTokens`. -/
structure UserActivity where
  availableTokens : Nat
  totalImageProcessed : Nat
  tokenHistory : List LedgerEntry
deriving DecidableEq, Repr

/-- Modelled from the spec: `UserActivity.useTokens` lives in
`src/server/src/models/activity.model.js`, which is not under `src/`; per the
Token Ledger description of the spec a debit subtracts the amount from the
available balance and appends a ledger entry with the reason and batch id. -/
def UserActivity.useTokens (a : UserActivity) (amount : Nat)
    (reason batchId : String) : UserActivity :=
  { a with
    availableTokens := a.availableTokens - amount
    tokenHistory := a.tokenHistory ++ [⟨-(amount : Int), reason, batchId⟩] }

/-- One element of the `images` array of an `ImagesModel` document: Mongo subdocument id,
`imageName`, `imageUrl`, and the generated metadata (kept opaque). -/
structure ImageDetails where
  id : String
  imageName : String
  imageUrl : String
  metadata : String
deriving DecidableEq, Repr

/-- An `ImagesModel` document: one batch record per `(userId, batchId)`. -/
structure BatchRecord where
  userId : String
  batchId : String
  images : List ImageDetails
deriving DecidableEq, Repr

/-- The durable state the controller touches: the `UserActivity` document
of the requesting user (`findOne({userId})` result), the `ImagesModel`
collection, and the set of object keys present in the S3 bucket. -/
structure ServerState where
  activity : Option UserActivity
  batches : List BatchRecord
  store : List String
deriving DecidableEq, Repr

/-- The external calls `uploadSingleImage` can make, in order of the code. -/
inductive ExtCall
  | generate
  | putObject
  | dbUpsert
  | ledgerSave
deriving DecidableEq, Repr

/-- Outcomes of the external calls for one request: whether `processImage`
(generation), the S3 `PutObjectCommand`, the `ImagesModel.findOneAndUpdate`,
and the `userActivity.save()` succeed, plus the fresh ids the environment
supplies (`uuidv4`, the Mongo subdocument id) and the generated metadata. -/
structure UploadEnv where
  genOk : Bool
  genMetadata : String
  putOk : Bool
  dbOk : Bool
  saveOk : Bool
  newBatchId : String
  newImageId : String
  urlEndpoint : String
deriving DecidableEq, Repr

/-- The request fields `uploadSingleImage` reads. -/
structure UploadRequest where
  filename : String
  userId : String
  batchId : Option String
deriving DecidableEq, Repr

/-- The controller response: the 200 payload or an `ApiError`. -/
inductive UploadResult
  | ok (batchId : String) (image : ImageDetails) (remainingTokens : Nat)
  | apiError (status : Nat) (message : String)
deriving DecidableEq, Repr

/-- Whether an `UploadResult` is an error response. -/
def UploadResult.isError : UploadResult → Bool
  | .apiError _ _ => true
  | .ok _ _ _ => false

/-- Embedding of `ImagesModel.findOneAndUpdate` with `$setOnInsert`/`$push`/`upsert`
(single-image.controller.js, lines 74-81): append the image to the
`(userId, batchId)` record, creating the record on first write. -/
def upsertBatch (batches : List BatchRecord) (userId batchId : String)
    (img : ImageDetails) : List BatchRecord :=
  if batches.any (fun b => b.userId == userId && b.batchId == batchId) then
    batches.map (fun b =>
      if b.userId == userId && b.batchId == batchId then
        { b with images := b.images ++ [img] }
      else b)
  else
    batches ++ [⟨userId, batchId, [img]⟩]

/-- Embedding of `uploadSingleImage` (single-image.controller.js, lines 30-110).  Control
flow of the source: look up the `UserActivity` record (404 when absent);
reject with a 400 when `availableTokens < 1`; then, inside the try block, run
generation, the S3 put, the batch-record upsert and finally
`useTokens(1, ...)` + `save()`; any throw inside the try block yields a 500
and skips every later step, leaving earlier effects (the stored object, the
appended batch record) in place.  Besides the response and the post-state we
return the list of external calls made, in order. -/
def uploadSingleImage (env : UploadEnv) (req : UploadRequest) (st : ServerState) :
    UploadResult × ServerState × List ExtCall :=
  match st.activity with
  | none => (.apiError 404 "User activity record not found", st, [])
  | some ua =>
    if ua.availableTokens < 1 then
      (.apiError 400 "Insufficient tokens to upload an image", st, [])
    else
      let newBatchId := req.batchId.getD env.newBatchId
      if !env.genOk then
        (.apiError 500 "Failed to upload image: generation failed", st,
          [.generate])
      else
        let objectKey :=
          "uploads/" ++ req.userId ++ "/" ++ newBatchId ++ "/" ++ req.filename
        if !env.putOk then
          (.apiError 500 "Failed to upload image: storage failed", st,
            [.generate, .putObject])
        else
          let st1 := { st with store := st.store ++ [objectKey] }
          let imageDetails : ImageDetails :=
            ⟨env.newImageId, req.filename, env.urlEndpoint ++ "/" ++ objectKey,
              env.genMetadata⟩
          if !env.dbOk then
            (.apiError 500 "Failed to upload image: database failed", st1,
              [.generate, .putObject, .dbUpsert])
          else
            let st2 := { st1 with
              batches := upsertBatch st1.batches req.userId newBatchId imageDetails }
            let ua2 :=
              { ua.useTokens 1 ("Processed images in batch: " ++ newBatchId)
                  newBatchId with
                totalImageProcessed := ua.totalImageProcessed + 1 }
            if !env.saveOk then
              (.apiError 500 "Failed to upload image: ledger save failed", st2,
                [.generate, .putObject, .dbUpsert, .ledgerSave])
            else
              (.ok newBatchId imageDetails ua2.availableTokens,
                { st2 with activity := some ua2 },
                [.generate, .putObject, .dbUpsert, .ledgerSave])

/-- The token balance recorded in a server state (0 when the user record is
absent). -/
def ServerState.tokens (st : ServerState) : Nat :=
  (st.activity.map (fun a => a.availableTokens)).getD 0

/-- The token transaction log recorded in a server state. -/
def ServerState.ledger (st : ServerState) : List LedgerEntry :=
  (st.activity.map (fun a => a.tokenHistory)).getD []

/-! ## deleteImage (single-image.controller.js, lines 112-160) -/

/-- The query fields `deleteImage` reads. -/
structure DeleteRequest where
  imageId : String
  batchId : String
  userId : String
deriving DecidableEq, Repr

/-- The response type of `deleteImage`. -/
inductive DeleteResult
  | ok
  | apiError (status : Nat) (message : String)
deriving DecidableEq, Repr

/-- Predicate selecting the batch document `deleteImage` operates on. -/
def BatchRecord.matches (b : BatchRecord) (userId batchId : String) : Bool :=
  b.userId == userId && b.batchId == batchId

/-- Embedding of `deleteImage` (single-image.controller.js, lines 112-160).  Control flow
of the source: find the batch (404 when absent), find the image in it (404
when absent), then `$pull` the image from the record *before* the S3 delete;
inside the try block delete from S3 (500 on failure, with the pull already
persisted), and only after a successful S3 delete remove the batch document
when its `images` array has become empty.  `s3DeleteOk` is the outcome of the
`DeleteObjectCommand`. -/
def deleteImage (s3DeleteOk : Bool) (req : DeleteRequest) (st : ServerState) :
    DeleteResult × ServerState :=
  match st.batches.find? (fun b => b.matches req.userId req.batchId) with
  | none => (.apiError 404 "Batch not found", st)
  | some batch =>
    match batch.images.find? (fun img => img.id == req.imageId) with
    | none => (.apiError 404 "Image not found", st)
    | some deletedImage =>
      let st1 := { st with
        batches := st.batches.map (fun b =>
          if b.matches req.userId req.batchId then
            { b with images := b.images.filter (fun img => !(img.id == req.imageId)) }
          else b) }
      let objectKey :=
        "uploads/" ++ req.userId ++ "/" ++ req.batchId ++ "/" ++
          deletedImage.imageName
      if !s3DeleteOk then
        (.apiError 500 "Failed to delete image", st1)
      else
        let st2 := { st1 with store := st1.store.filter (fun k => !(k == objectKey)) }
        if batch.images.filter (fun img => !(img.id == req.imageId)) |>.isEmpty then
          (.ok, { st2 with
            batches := st2.batches.filter
              (fun b => !(b.matches req.userId req.batchId)) })
        else
          (.ok, st2)

/-! ## Concurrent debits (C2)

The controller performs the debit as `findOne` (read the document), a
balance check, then `useTokens` + `save` (write back `readValue - 1`).  We
model two concurrent upload requests for the same user as two threads, each
executing a read-and-check step followed by a write step against a shared
balance, under an arbitrary interleaving. -/

/-- The view one in-flight request has of the debit: program counter (0 = about to
`findOne` and check, 1 = about to `save`, 2 = finished), the balance it read,
and whether its debit succeeded. -/
structure DebitThread where
  pc : Nat
  cached : Nat
  succeeded : Bool
deriving DecidableEq, Repr

/-- A request that has not started. -/
def DebitThread.start : DebitThread := ⟨0, 0, false⟩

/-- One step of a request against the shared persisted balance.  At pc 0 the
request reads the document and applies the `availableTokens < 1` check
(failing the request when it does not hold); at pc 1 `save` persists the
in-memory document, whose balance is `cached - 1` after `useTokens(1, ...)`. -/
def debitStep (balance : Nat) (t : DebitThread) : Nat × DebitThread :=
  match t.pc with
  | 0 =>
    if balance < 1 then (balance, { t with pc := 2, succeeded := false })
    else (balance, { t with pc := 1, cached := balance })
  | 1 => (t.cached - 1, { t with pc := 2, succeeded := true })
  | _ => (balance, t)

/-- Run two interleaved debit requests: `sched` names, step by step, which
request moves (`false` = the first, `true` = the second). -/
def runDebits (sched : List Bool) (balance : Nat) (t0 t1 : DebitThread) :
    Nat × DebitThread × DebitThread :=
  match sched with
  | [] => (balance, t0, t1)
  | b :: rest =>
    if b then
      let s := debitStep balance t1
      runDebits rest s.1 t0 s.2
    else
      let s := debitStep balance t0
      runDebits rest s.1 s.2 t1

/-! ## Client response handling (handleFileUpload, cancelUpload) -/

/-- The `data` object of the upload response sent by the server. -/
structure UploadData where
  batchId : String
  successfulImages : List String
  failedImages : List FailedImage
  remainingTokens : Nat
deriving DecidableEq, Repr

/-- An `UploadResponse` as the client consumes it. -/
structure ClientResponse where
  success : Bool
  message : String
  data : UploadData
deriving DecidableEq, Repr

/-- The regeneration merge of `handleFileUpload` (upload-formv2 test.tsx,
lines 485-502): keep the new response but prepend the `successfulImages`
of the prior response (empty when there is no prior response). -/
def mergeRegenerationResponse (prior : Option ClientResponse)
    (resp : ClientResponse) : ClientResponse :=
  let previousSuccessfulImages :=
    (prior.map (fun r => r.data.successfulImages)).getD []
  { resp with data := { resp.data with
      successfulImages := previousSuccessfulImages ++ resp.data.successfulImages } }

/-- The `failedUploads` state after a well-formed response (upload-formv2
test.tsx, lines 514-532): the `failedImages` of the response when non-empty,
otherwise cleared. -/
def failedUploadsAfterResponse (resp : ClientResponse) : List FailedImage :=
  if resp.data.failedImages.length > 0 then resp.data.failedImages else []

/-- The `failedFiles` state after a well-formed response (upload-formv2
test.tsx, lines 521-531): filter the files of this attempt (`failedFiles` on
regeneration, `files` otherwise) down to those named in the `failedImages`
of the response; cleared when there are no failures. -/
def failedFilesAfterResponse (isRegeneration : Bool)
    (files failedFiles : List FileV) (resp : ClientResponse) : List FileV :=
  if resp.data.failedImages.length > 0 then
    (if isRegeneration then failedFiles else files).filter (fun file =>
      resp.data.failedImages.any (fun failed => failed.filename == file.name))
  else []

/-- The sentinel message `xhr.onabort` rejects with. -/
def uploadCancelledMessage : String := "Upload cancelled by user"

/-- The catch branch of `handleFileUpload` (upload-formv2 test.tsx, lines
536-552): a cancellation leaves `failedUploads` unchanged; any other error
replaces it with a single batch-level entry. -/
def failedUploadsAfterCatch (isRegeneration : Bool) (errorMessage : String)
    (prior : List FailedImage) : List FailedImage :=
  if errorMessage == uploadCancelledMessage then prior
  else
    [⟨if isRegeneration then "Batch regeneration" else "Batch upload",
      errorMessage⟩]

/-- The client session state `cancelUpload` touches: whether an XHR is in
flight (`xhrRef.current !== null`), whether it has been aborted, the dialog
and progress flags, and the `failedUploads` list. -/
structure ClientSession where
  xhrActive : Bool
  aborted : Bool
  showConfirmDialog : Bool
  showModal : Bool
  loading : Bool
  uploadingStarted : Bool
  uploadInProgress : Bool
  failedUploads : List FailedImage
deriving DecidableEq, Repr

/-- Embedding of `cancelUpload` (upload-formv2 test.tsx, lines 279-292): abort the XHR
when one is in flight and clear its reference, then reset the dialog and
progress flags.  `failedUploads` is not touched. -/
def cancelUpload (s : ClientSession) : ClientSession :=
  { s with
    aborted := s.aborted || s.xhrActive
    xhrActive := false
    showConfirmDialog := false
    showModal := false
    loading := false
    uploadingStarted := false
    uploadInProgress := false }

/-! ## Theorems -/

/-- C5: for a completed processing pass (a response is present and at least
one file was submitted), the `uploadStatus` classification of the code agrees
with that of the spec: `allSuccess` when the failed count is zero, `allFailed` when it
equals the number of submitted files, `partialSuccess` otherwise. -/
theorem uploadStatus_matches_specClassification
    (totalFiles failedCount : Nat) (h : 1 ≤ totalFiles) :
    uploadStatus true totalFiles failedCount =
      specClassification totalFiles failedCount := by
  unfold uploadStatus specClassification
  rw [if_neg (by decide : ¬((!true) = true))]
  split_ifs <;> first | rfl | (exfalso; omega)

theorem uploadStatus_matches_specClassification_witness :
    1 ≤ 3 ∧ uploadStatus true 3 2 = specClassification 3 2 :=
  ⟨by decide, uploadStatus_matches_specClassification 3 2 (by decide)⟩

/-- C7: an addition (selection or drop) whose image-typed file count plus the
already-selected count exceeds 100 is rejected with the selection unchanged;
and every handler preserves the invariant that at most 100 files are
selected. -/
theorem fileLimit_enforced (files offered : List FileV) (index : Nat) :
    (files.length +
        (offered.filter (fun f => strStartsWith f.type "image/")).length > 100 →
      handleFileChange files offered = files ∧ handleDrop files offered = files)
    ∧ (files.length ≤ 100 →
      (handleFileChange files offered).length ≤ 100 ∧
      (handleDrop files offered).length ≤ 100 ∧
      (removeFile files index).length ≤ 100 ∧
      clearAllFiles.length ≤ 100) := by
  constructor
  · intro h
    constructor <;> simp [handleFileChange, handleDrop, h]
  · intro h
    have hrem : (removeFile files index).length ≤ files.length := by
      unfold removeFile
      calc ((files.enum.filter (fun p => p.1 ≠ index)).map (fun p => p.2)).length
          = (files.enum.filter (fun p => p.1 ≠ index)).length := by
            rw [List.length_map]
        _ ≤ files.enum.length := List.length_filter_le _ _
        _ = files.length := List.enum_length
    refine ⟨?_, ?_, le_trans hrem h, by simp [clearAllFiles]⟩ <;>
      · simp only [handleFileChange, handleDrop]
        split_ifs with hc
        · exact h
        · simp only [List.length_append]
          omega

theorem fileLimit_enforced_witness :
    (List.replicate 100 (⟨"a.png", "image/png"⟩ : FileV)).length +
        (([⟨"b.png", "image/png"⟩] : List FileV).filter
          (fun f => strStartsWith f.type "image/")).length > 100
    ∧ handleFileChange (List.replicate 100 ⟨"a.png", "image/png"⟩)
        [⟨"b.png", "image/png"⟩] = List.replicate 100 ⟨"a.png", "image/png"⟩ :=
  ⟨by decide,
    ((fileLimit_enforced (List.replicate 100 ⟨"a.png", "image/png"⟩)
      [⟨"b.png", "image/png"⟩] 0).1 (by decide)).1⟩

/-- C8 counterexample: a file with declared type `image/gif` is outside the
allow-list `{image/jpeg, image/png, image/webp}`, yet `handleFileChange`
accepts it into the selection (its filter only requires the type to start
with `image/`), refuting the claim that every submission boundary accepts
only allow-listed types. -/
theorem handleFileChange_accepts_gif_cex :
    handleFileChange [] [⟨"a.gif", "image/gif"⟩] = [⟨"a.gif", "image/gif"⟩]
    ∧ allowedImageTypes.contains "image/gif" = false := by decide

/-- C8 amended: the `onDrop` boundary of `src/unnamed/part_000` accepts
exactly the files whose declared type is in the allow-list
`{image/jpeg, image/png, image/webp}`, while the `handleFileChange` boundary
of upload-formv2 only requires the declared type to start with `image/`
(so e.g. `image/gif` passes there). -/
theorem mime_filters_characterised (dropped files : List FileV) (f : FileV) :
    (f ∈ onDropFilter dropped ↔
      f ∈ dropped ∧ allowedImageTypes.contains f.type = true)
    ∧ (f ∈ handleFileChange files dropped →
      f ∈ files ∨ strStartsWith f.type "image/" = true) := by
  constructor
  · simp [onDropFilter, List.mem_filter]
  · intro hf
    simp only [handleFileChange] at hf
    split_ifs at hf with hc
    · exact Or.inl hf
    · rcases List.mem_append.mp hf with hmem | hmem
      · exact Or.inl hmem
      · exact Or.inr (List.mem_filter.mp hmem).2

theorem mime_filters_characterised_witness :
    (⟨"a.jpg", "image/jpeg"⟩ : FileV) ∈ onDropFilter [⟨"a.jpg", "image/jpeg"⟩] :=
  (mime_filters_characterised [⟨"a.jpg", "image/jpeg"⟩] [] ⟨"a.jpg", "image/jpeg"⟩).1.mpr
    ⟨by decide, by decide⟩

/-- C9: `cancelUpload` aborts the in-flight request when one exists and
leaves `failedUploads` untouched; the catch branch of `handleFileUpload`
leaves `failedUploads` unchanged on the cancellation sentinel and records
exactly one batch-level entry on any other error. -/
theorem cancellation_frame (s : ClientSession) (isReg : Bool) (msg : String)
    (prior : List FailedImage) :
    (cancelUpload s).failedUploads = s.failedUploads
    ∧ (s.xhrActive = true → (cancelUpload s).aborted = true)
    ∧ failedUploadsAfterCatch isReg uploadCancelledMessage prior = prior
    ∧ (msg ≠ uploadCancelledMessage →
      failedUploadsAfterCatch isReg msg prior =
        [⟨if isReg then "Batch regeneration" else "Batch upload", msg⟩]) := by
  refine ⟨rfl, ?_, ?_, ?_⟩
  · intro h; simp [cancelUpload, h]
  · simp [failedUploadsAfterCatch]
  · intro h; simp [failedUploadsAfterCatch, h]

theorem cancellation_frame_witness :
    (cancelUpload ⟨true, false, false, true, true, true, true,
        [⟨"x.jpg", "boom"⟩]⟩).failedUploads = [⟨"x.jpg", "boom"⟩]
    ∧ (cancelUpload ⟨true, false, false, true, true, true, true,
        [⟨"x.jpg", "boom"⟩]⟩).aborted = true
    ∧ failedUploadsAfterCatch false "Server unavailable" []
        = [⟨"Batch upload", "Server unavailable"⟩] :=
  ⟨(cancellation_frame ⟨true, false, false, true, true, true, true,
      [⟨"x.jpg", "boom"⟩]⟩ false "m" []).1,
    (cancellation_frame ⟨true, false, false, true, true, true, true,
      [⟨"x.jpg", "boom"⟩]⟩ false "m" []).2.1 rfl,
    (cancellation_frame ⟨true, false, false, true, true, true, true,
      [⟨"x.jpg", "boom"⟩]⟩ false "Server unavailable" []).2.2.2 (by decide)⟩

/-- C6: merging a regeneration response concatenates the prior successful
list with the new one, replaces the failed list by exactly the residual
failures of the new attempt, and the retained failed-file set is a subset of the
previously failed files. -/
theorem regeneration_merge (prior resp : ClientResponse)
    (files failedFiles : List FileV) :
    (mergeRegenerationResponse (some prior) resp).data.successfulImages =
      prior.data.successfulImages ++ resp.data.successfulImages
    ∧ failedUploadsAfterResponse resp = resp.data.failedImages
    ∧ ∀ f ∈ failedFilesAfterResponse true files failedFiles resp,
        f ∈ failedFiles := by
  refine ⟨rfl, ?_, ?_⟩
  · unfold failedUploadsAfterResponse
    split_ifs with h
    · rfl
    · simp only [gt_iff_lt, not_lt, Nat.le_zero] at h
      exact (List.length_eq_zero.mp h).symm
  · intro f hf
    unfold failedFilesAfterResponse at hf
    by_cases h : resp.data.failedImages.length > 0
    · rw [if_pos h, if_pos rfl] at hf
      exact (List.mem_filter.mp hf).1
    · rw [if_neg h] at hf
      cases hf

theorem regeneration_merge_witness :
    (mergeRegenerationResponse
        (some ⟨true, "ok", ⟨"b1", ["s1"], [⟨"f2.jpg", "e"⟩], 7⟩⟩)
        ⟨true, "ok", ⟨"b1", ["s2"], [], 6⟩⟩).data.successfulImages =
      ["s1", "s2"] :=
  (regeneration_merge ⟨true, "ok", ⟨"b1", ["s1"], [⟨"f2.jpg", "e"⟩], 7⟩⟩
    ⟨true, "ok", ⟨"b1", ["s2"], [], 6⟩⟩ [] []).1

/-- C2: with a balance of exactly 1 token, two interleaved upload requests
that both read the user document before either saves it both pass the
balance check and both debit successfully — the `findOne` /
`useTokens` / `save` sequence is an unisolated read-then-write pair, so the
claimed at-most-one guarantee fails. -/
theorem concurrent_debits_both_succeed :
    (runDebits [false, true, false, true] 1
        DebitThread.start DebitThread.start).2.1.succeeded = true
    ∧ (runDebits [false, true, false, true] 1
        DebitThread.start DebitThread.start).2.2.succeeded = true
    ∧ (runDebits [false, true, false, true] 1
        DebitThread.start DebitThread.start).1 = 0 := by decide

/-! ### Concrete inputs for the server-side claims -/

/-- A request uploading `img.jpg` for user `u1` with no batch id supplied. -/
def cexReq : UploadRequest := ⟨"img.jpg", "u1", none⟩

/-- A server state whose user has 5 tokens, no batches, an empty store. -/
def cexSt : ServerState := ⟨some ⟨5, 0, []⟩, [], []⟩

/-- Environment where every external call succeeds. -/
def okEnv : UploadEnv := ⟨true, "meta", true, true, true, "b1", "i1", "ep"⟩

/-- Environment where generation fails. -/
def cexGenFailEnv : UploadEnv := ⟨false, "meta", true, true, true, "b1", "i1", "ep"⟩

/-- Environment where generation and the S3 put succeed but the batch-record
upsert fails. -/
def cexDbFailEnv : UploadEnv := ⟨true, "meta", true, false, true, "b1", "i1", "ep"⟩

/-- Environment where everything up to and including the batch-record upsert
succeeds but the ledger `save()` fails. -/
def cexSaveFailEnv : UploadEnv := ⟨true, "meta", true, true, false, "b1", "i1", "ep"⟩

/-- A server state whose user has 0 tokens. -/
def brokeSt : ServerState := ⟨some ⟨0, 3, []⟩, [], []⟩

/-- C1 counterexample: generation and the S3 put succeed, then the
batch-record upsert fails: the request ends in an error with the object
stored (`store` gained the key) but no debit performed (balance and ledger
unchanged) — so a successful storage write exists without a ledger debit,
refuting the claimed equivalence between the debit and storage success. -/
theorem storage_success_without_debit_cex :
    (uploadSingleImage cexDbFailEnv cexReq cexSt).1.isError = true
    ∧ (uploadSingleImage cexDbFailEnv cexReq cexSt).2.1.store
        = ["uploads/u1/b1/img.jpg"]
    ∧ (uploadSingleImage cexDbFailEnv cexReq cexSt).2.1.tokens = cexSt.tokens
    ∧ (uploadSingleImage cexDbFailEnv cexReq cexSt).2.1.ledger = [] := by
  decide

/-- C1 amended: the debit executes only after the storage put succeeded (a
changed ledger implies generation, storage, record append and the ledger
save all succeeded, with the put among the calls made and the balance
debited by exactly 1), and on any generation or storage failure the request
completes with an error and the durable state — balance included —
unchanged. -/
theorem debit_only_after_successful_storage (env : UploadEnv)
    (req : UploadRequest) (st : ServerState) :
    ((env.genOk = false ∨ env.putOk = false) →
      (uploadSingleImage env req st).2.1 = st
      ∧ (uploadSingleImage env req st).1.isError = true)
    ∧ ((uploadSingleImage env req st).2.1.ledger ≠ st.ledger →
      env.genOk = true ∧ env.putOk = true ∧ env.dbOk = true
      ∧ env.saveOk = true
      ∧ ExtCall.putObject ∈ (uploadSingleImage env req st).2.2
      ∧ (uploadSingleImage env req st).2.1.tokens = st.tokens - 1) := by
  unfold uploadSingleImage
  rcases hact : st.activity with _ | ua
  · exact ⟨fun _ => ⟨rfl, rfl⟩, fun hne => absurd rfl hne⟩
  · dsimp only
    split_ifs with h1 h2 h3 h4 h5
    · exact ⟨fun _ => ⟨rfl, rfl⟩, fun hne => absurd rfl hne⟩
    · exact ⟨fun _ => ⟨rfl, rfl⟩, fun hne => absurd rfl hne⟩
    · exact ⟨fun _ => ⟨rfl, rfl⟩, fun hne => absurd rfl hne⟩
    · refine ⟨?_, fun hne => absurd (by simp [ServerState.ledger, hact]) hne⟩
      rintro (h | h)
      · exact absurd (by simp [h]) h2
      · exact absurd (by simp [h]) h3
    · refine ⟨?_, fun hne => absurd (by simp [ServerState.ledger, hact]) hne⟩
      rintro (h | h)
      · exact absurd (by simp [h]) h2
      · exact absurd (by simp [h]) h3
    · constructor
      · rintro (h | h)
        · exact absurd (by simp [h]) h2
        · exact absurd (by simp [h]) h3
      · intro _
        have hg : env.genOk = true := by revert h2; cases env.genOk <;> simp
        have hp : env.putOk = true := by revert h3; cases env.putOk <;> simp
        have hd : env.dbOk = true := by revert h4; cases env.dbOk <;> simp
        have hs : env.saveOk = true := by revert h5; cases env.saveOk <;> simp
        refine ⟨hg, hp, hd, hs, ?_, ?_⟩
        · dsimp only
          exact List.mem_cons_of_mem _ (List.mem_cons_self _ _)
        · simp [ServerState.tokens, hact, UserActivity.useTokens]

theorem debit_only_after_successful_storage_witness :
    ((uploadSingleImage cexGenFailEnv cexReq cexSt).2.1 = cexSt
      ∧ (uploadSingleImage cexGenFailEnv cexReq cexSt).1.isError = true)
    ∧ (uploadSingleImage okEnv cexReq cexSt).2.1.tokens = cexSt.tokens - 1 :=
  ⟨(debit_only_after_successful_storage cexGenFailEnv cexReq cexSt).1
      (Or.inl rfl),
    ((debit_only_after_successful_storage okEnv cexReq cexSt).2
      (by decide)).2.2.2.2.2⟩

/-- C3 counterexample: storage, the record append and everything before the
debit succeed, then the ledger `save()` fails: the request returns a 500
`ApiError` — not a `Success` outcome — while the stored object stays in the
store, refuting the claim that the per-image outcome is still recorded as
`Success`. -/
theorem debit_failure_not_reported_success_cex :
    (uploadSingleImage cexSaveFailEnv cexReq cexSt).1
      = .apiError 500 "Failed to upload image: ledger save failed"
    ∧ (uploadSingleImage cexSaveFailEnv cexReq cexSt).2.1.store
      = ["uploads/u1/b1/img.jpg"] := by decide

/-- C3 amended: when storage has durably succeeded but the subsequent ledger
debit fails, the stored object is indeed not rolled back (its key stays in
the store) and the balance and ledger are unchanged, but the request returns
a 500 error rather than recording the outcome as `Success`. -/
theorem debit_failure_keeps_object_returns_error (env : UploadEnv)
    (req : UploadRequest) (st : ServerState) (ua : UserActivity)
    (hact : st.activity = some ua) (htok : ¬ ua.availableTokens < 1)
    (hg : env.genOk = true) (hp : env.putOk = true) (hd : env.dbOk = true)
    (hs : env.saveOk = false) :
    (uploadSingleImage env req st).1
      = .apiError 500 "Failed to upload image: ledger save failed"
    ∧ ("uploads/" ++ req.userId ++ "/" ++ (req.batchId.getD env.newBatchId)
        ++ "/" ++ req.filename) ∈ (uploadSingleImage env req st).2.1.store
    ∧ (uploadSingleImage env req st).2.1.tokens = st.tokens
    ∧ (uploadSingleImage env req st).2.1.ledger = st.ledger := by
  unfold uploadSingleImage
  rw [hact]
  dsimp only
  rw [if_neg htok, hg, hp, hd, hs,
    if_neg (by decide : ¬((!true) = true)),
    if_neg (by decide : ¬((!true) = true)),
    if_neg (by decide : ¬((!true) = true)),
    if_pos (by decide : ((!false) = true))]
  refine ⟨rfl, ?_, by simp [ServerState.tokens, hact],
    by simp [ServerState.ledger, hact]⟩
  exact List.mem_append_right _ (List.mem_singleton.mpr rfl)

theorem debit_failure_keeps_object_returns_error_witness :
    (uploadSingleImage cexSaveFailEnv cexReq cexSt).1
      = .apiError 500 "Failed to upload image: ledger save failed" :=
  (debit_failure_keeps_object_returns_error cexSaveFailEnv cexReq cexSt
    ⟨5, 0, []⟩ rfl (by decide) rfl rfl rfl rfl).1

/-- C4: a request by a user whose balance is below 1 token fails with the
insufficient-tokens error, makes no external call at all (the metadata
generator and the object store are never invoked), and leaves the state —
ledger, store and batch records — exactly unchanged. -/
theorem insufficient_tokens_before_any_effect (env : UploadEnv)
    (req : UploadRequest) (st : ServerState) (ua : UserActivity)
    (hact : st.activity = some ua) (h : ua.availableTokens < 1) :
    uploadSingleImage env req st
      = (.apiError 400 "Insufficient tokens to upload an image", st, []) := by
  unfold uploadSingleImage
  rw [hact]
  dsimp only
  rw [if_pos h]

theorem insufficient_tokens_before_any_effect_witness :
    uploadSingleImage okEnv cexReq brokeSt
      = (.apiError 400 "Insufficient tokens to upload an image", brokeSt, []) :=
  insufficient_tokens_before_any_effect okEnv cexReq brokeSt ⟨0, 3, []⟩ rfl
    (by decide)

/-! ### deleteImage claims -/

/-- A state holding one batch for `u1` with a single image `i1`. -/
def delSt : ServerState :=
  ⟨none, [⟨"u1", "b1", [⟨"i1", "img1.jpg", "url", "m"⟩]⟩],
    ["uploads/u1/b1/img1.jpg"]⟩

/-- The deletion request for that image. -/
def delReq : DeleteRequest := ⟨"i1", "b1", "u1"⟩

/-- C10 counterexample: deleting the only image of a batch while the S3
delete fails: the request errors and the removal of the image entry
persists, but
the now-empty batch record is still present (it is only deleted after a
successful store delete), refuting the claim that the empty batch record is
deleted before the object-store delete is attempted. -/
theorem deleteImage_empty_batch_retained_cex :
    (deleteImage false delReq delSt).1 = .apiError 500 "Failed to delete image"
    ∧ (deleteImage false delReq delSt).2.batches = [⟨"u1", "b1", []⟩]
    ∧ (deleteImage false delReq delSt).2.store = ["uploads/u1/b1/img1.jpg"] := by
  decide

/-- C10 amended: the image entry is removed from the batch record before the
object-store delete; if the store delete fails the request returns an error
with the entry removal persisted and the store untouched — but the batch
record itself, even when emptied, is only deleted after the store delete
succeeds. -/
theorem deleteImage_record_removal_before_store_delete (ok : Bool)
    (req : DeleteRequest) (st : ServerState) (batch : BatchRecord)
    (img : ImageDetails)
    (hb : st.batches.find? (fun b => b.matches req.userId req.batchId)
        = some batch)
    (hi : batch.images.find? (fun i => i.id == req.imageId) = some img) :
    (ok = false →
      (deleteImage ok req st).1 = .apiError 500 "Failed to delete image"
      ∧ { batch with
            images := batch.images.filter (fun i => !(i.id == req.imageId)) }
          ∈ (deleteImage ok req st).2.batches
      ∧ (deleteImage ok req st).2.store = st.store)
    ∧ (ok = true →
      batch.images.filter (fun i => !(i.id == req.imageId)) = [] →
      ∀ b ∈ (deleteImage ok req st).2.batches,
        b.matches req.userId req.batchId = false) := by
  unfold deleteImage
  rw [hb]
  dsimp only
  rw [hi]
  dsimp only
  constructor
  · intro hok
    rw [hok, if_pos (by decide : ((!false) = true))]
    refine ⟨rfl, ?_, rfl⟩
    have hmem : batch ∈ st.batches := List.mem_of_find?_eq_some hb
    have hpred : batch.matches req.userId req.batchId = true :=
      List.find?_some
        (p := fun (b : BatchRecord) => b.matches req.userId req.batchId) hb
    have hmap := List.mem_map_of_mem (fun b =>
      if b.matches req.userId req.batchId then
        { b with images := b.images.filter (fun i => !(i.id == req.imageId)) }
      else b) hmem
    dsimp only at hmap
    rw [if_pos hpred] at hmap
    exact hmap
  · intro hok hempty b hbmem
    rw [hok] at hbmem
    rw [if_neg (by decide : ¬((!true) = true))] at hbmem
    rw [hempty] at hbmem
    rw [if_pos (by decide : (List.isEmpty ([] : List ImageDetails)) = true)]
      at hbmem
    dsimp only at hbmem
    have h2 := (List.mem_filter.mp hbmem).2
    simpa using h2

theorem deleteImage_record_removal_before_store_delete_witness :
    (deleteImage false delReq delSt).1
      = .apiError 500 "Failed to delete image" :=
  ((deleteImage_record_removal_before_store_delete false delReq delSt
    ⟨"u1", "b1", [⟨"i1", "img1.jpg", "url", "m"⟩]⟩
    ⟨"i1", "img1.jpg", "url", "m"⟩ (by decide) (by decide)).1 rfl).1

end GenMeta
